import Mathlib

/-
Shallow embedding of the credit-risk scoring repository
(src/main.py and src/generate_data.py) and proofs of the spec claims.

Python floats are embedded as exact rationals (the scoring logic only
compares them against decimal constants far from any binary-float tie),
Python ints as integers.  The two datetime.now() reads inside
calculate_risk_score are passed in as explicit string parameters: the
function has no other source of nondeterminism.
-/

attribute [local semireducible] Rat.mul Rat.inv Rat.add Rat.sub Rat.ofScientific

namespace CreditRisk

inductive EmploymentStatus where
  | employed
  | self_employed
  | unemployed
  deriving DecidableEq, Repr

inductive PropertyArea where
  | urban
  | suburban
  | rural
  deriving DecidableEq, Repr

inductive Education where
  | graduate
  | not_graduate
  deriving DecidableEq, Repr

/-- The request model LoanApplication of src/main.py (lines 30-39).
Enum-valued string fields are embedded as inductive types; the numeric
Field constraints become the Valid predicate below. -/
structure LoanApplication where
  applicant_income : ℚ
  loan_amount : ℚ
  loan_term_months : ℤ
  credit_history_months : ℤ
  employment_status : EmploymentStatus
  property_area : PropertyArea
  dependents : ℤ
  education : Education
  existing_debt : ℚ
  deriving DecidableEq, Repr

/-- The pydantic Field constraints of src/main.py lines 31-39 (gt=0, ge/le
bounds), which are also the §3 constraints of the spec. -/
def Valid (a : LoanApplication) : Prop :=
  0 < a.applicant_income ∧ 0 < a.loan_amount ∧
  12 ≤ a.loan_term_months ∧ a.loan_term_months ≤ 480 ∧
  0 ≤ a.credit_history_months ∧
  0 ≤ a.dependents ∧ a.dependents ≤ 10 ∧
  0 ≤ a.existing_debt

instance (a : LoanApplication) : Decidable (Valid a) := by
  unfold Valid
  infer_instance

/-- debt_to_income of src/main.py line 82. -/
def debt_to_income (a : LoanApplication) : ℚ :=
  a.existing_debt / a.applicant_income * 100

/-- loan_to_income of src/main.py line 83. -/
def loan_to_income (a : LoanApplication) : ℚ :=
  a.loan_amount / a.applicant_income

/-- monthly_payment of src/main.py line 84. -/
def monthly_payment (a : LoanApplication) : ℚ :=
  a.loan_amount / (a.loan_term_months : ℚ)

/-- payment_to_income of src/main.py line 85. -/
def payment_to_income (a : LoanApplication) : ℚ :=
  monthly_payment a * 12 / a.applicant_income * 100

/-- Income adjustment, the if/elif chain of src/main.py lines 91-96. -/
def incomeAdj (income : ℚ) : ℤ :=
  if income > 80000 then 15
  else if income > 50000 then 10
  else if income < 25000 then -15
  else 0

/-- Debt-to-income adjustment, src/main.py lines 99-106. -/
def dtiAdj (dti : ℚ) : ℤ :=
  if dti < 20 then 15
  else if dti < 35 then 5
  else if dti > 50 then -15
  else if dti > 40 then -10
  else 0

/-- Loan-to-income adjustment, src/main.py lines 109-116. -/
def ltiAdj (lti : ℚ) : ℤ :=
  if lti < 2 then 15
  else if lti < 3 then 8
  else if lti > 5 then -15
  else if lti > 4 then -10
  else 0

/-- Credit-history adjustment, src/main.py lines 119-124. -/
def creditAdj (months : ℤ) : ℤ :=
  if months > 60 then 10
  else if months > 36 then 5
  else if months < 12 then -10
  else 0

/-- Employment adjustment, src/main.py lines 127-130. -/
def employmentAdj : EmploymentStatus → ℤ
  | .employed => 10
  | .unemployed => -20
  | .self_employed => 0

/-- Education adjustment, src/main.py lines 133-134. -/
def educationAdj : Education → ℤ
  | .graduate => 5
  | .not_graduate => 0

/-- Property-area adjustment, src/main.py lines 137-140. -/
def areaAdj : PropertyArea → ℤ
  | .urban => 5
  | .rural => -3
  | .suburban => 0

/-- Dependents adjustment, src/main.py lines 143-146. -/
def dependentsAdj (d : ℤ) : ℤ :=
  if d = 0 then 5
  else if d > 3 then -5
  else 0

/-- Loan-term adjustment, src/main.py lines 149-152. -/
def loanTermAdj (t : ℤ) : ℤ :=
  if t ≤ 180 then 5
  else if t > 360 then -3
  else 0

/-- The accumulated score of src/main.py lines 88-152: base 50 plus the
nine sequential factor adjustments, before the clamp. -/
def rawScore (a : LoanApplication) : ℤ :=
  50 + incomeAdj a.applicant_income
     + dtiAdj (debt_to_income a)
     + ltiAdj (loan_to_income a)
     + creditAdj a.credit_history_months
     + employmentAdj a.employment_status
     + educationAdj a.education
     + areaAdj a.property_area
     + dependentsAdj a.dependents
     + loanTermAdj a.loan_term_months

/-- The clamp of src/main.py line 155: score = max(0, min(100, score)). -/
def clampedScore (a : LoanApplication) : ℤ :=
  max 0 (min 100 (rawScore a))

inductive RiskCategory where
  | LOW
  | MEDIUM
  | HIGH
  deriving DecidableEq, Repr

inductive Approval where
  | APPROVE
  | REVIEW
  | DECLINE
  deriving DecidableEq, Repr

/-- Risk-category branch of src/main.py lines 158-166. -/
def risk_category_of (score : ℤ) : RiskCategory :=
  if score ≥ 70 then .LOW
  else if score ≥ 50 then .MEDIUM
  else .HIGH

/-- Approval branch of src/main.py lines 158-166. -/
def approval_of (score : ℤ) : Approval :=
  if score ≥ 70 then .APPROVE
  else if score ≥ 50 then .REVIEW
  else .DECLINE

/-- positive_factors of src/main.py lines 169-181: conditional appends in
fixed order become concatenation of conditional singletons. -/
def positive_factors (a : LoanApplication) : List String :=
  (if a.applicant_income > 60000 then ["Strong income level"] else []) ++
  (if debt_to_income a < 30 then ["Low debt-to-income ratio"] else []) ++
  (if a.credit_history_months > 48 then ["Established credit history"] else []) ++
  (if a.employment_status = .employed then ["Stable employment"] else []) ++
  (if loan_to_income a < 3 then ["Reasonable loan amount"] else [])

/-- negative_factors of src/main.py lines 183-192, with the value of the
local payment_to_income taken as a parameter (the engine instantiates it
with payment_to_income a; the parameter makes its influence provable). -/
def negative_factors_pti (a : LoanApplication) (pti : ℚ) : List String :=
  (if debt_to_income a > 40 then ["High existing debt burden"] else []) ++
  (if loan_to_income a > 4 then ["Large loan relative to income"] else []) ++
  (if a.credit_history_months < 24 then ["Limited credit history"] else []) ++
  (if a.employment_status = .unemployed then ["No stable income source"] else []) ++
  (if pti > 40 then ["High monthly payment burden"] else [])

/-- negative_factors of src/main.py lines 183-192. -/
def negative_factors (a : LoanApplication) : List String :=
  negative_factors_pti a (payment_to_income a)

/-- Python's built-in round on an exact rational: round half to even.
Stated with the executable Rat.floor so that concrete instances
evaluate. -/
def pyRound (q : ℚ) : ℤ :=
  if q - (q.floor : ℚ) < 1/2 then q.floor
  else if 1/2 < q - (q.floor : ℚ) then q.floor + 1
  else if q.floor % 2 = 0 then q.floor
  else q.floor + 1

/-- Python's round(q, 2). -/
def round2 (q : ℚ) : ℚ :=
  (pyRound (q * 100) : ℚ) / 100

/-- Confidence before rounding, src/main.py line 198. -/
def confidence_raw (score : ℤ) : ℚ :=
  0.75 + (|(score : ℚ) - 50| / 100) * 0.2

/-- The response model RiskAssessment of src/main.py lines 56-65.  The
key_factors dict has the two fixed keys positive and negative, embedded
as two list fields. -/
structure RiskAssessment where
  application_id : String
  risk_score : ℤ
  risk_category : RiskCategory
  approval_recommendation : Approval
  confidence : ℚ
  key_factors_positive : List String
  key_factors_negative : List String
  debt_to_income_ratio : ℚ
  loan_to_income_ratio : ℚ
  processed_at : String
  deriving DecidableEq, Repr

/-- calculate_risk_score of src/main.py lines 75-213, with the local
payment_to_income generalised to a parameter pti (every other part is as
in the source; the engine proper instantiates pti with the computed
ratio). -/
def calculate_with_pti (application : LoanApplication) (pti : ℚ)
    (now_compact now_iso : String) : RiskAssessment :=
  let score := clampedScore application
  { application_id := "APP-" ++ now_compact
    risk_score := score
    risk_category := risk_category_of score
    approval_recommendation := approval_of score
    confidence := round2 (confidence_raw score)
    key_factors_positive :=
      if positive_factors application = [] then ["None identified"]
      else positive_factors application
    key_factors_negative :=
      if negative_factors_pti application pti = [] then ["None identified"]
      else negative_factors_pti application pti
    debt_to_income_ratio := round2 (debt_to_income application)
    loan_to_income_ratio := round2 (loan_to_income application)
    processed_at := now_iso }

/-- calculate_risk_score of src/main.py lines 75-213.  The two
datetime.now() reads (the id suffix and the processed_at timestamp) are
explicit string parameters. -/
def calculate_risk_score (application : LoanApplication)
    (now_compact now_iso : String) : RiskAssessment :=
  calculate_with_pti application (payment_to_income application)
    now_compact now_iso

/-- A fixed concrete valid application: Scenario 2 of the spec (also the
low-risk test of src/test_main.py). -/
def scenario2 : LoanApplication :=
  { applicant_income := 100000
    loan_amount := 150000
    loan_term_months := 180
    credit_history_months := 96
    employment_status := .employed
    property_area := .urban
    dependents := 1
    education := .graduate
    existing_debt := 5000 }

def clock1 : String := "20260101000000"

def clock2 : String := "2026-01-01T00:00:00"

/-
The dataset generator, src/generate_data.py.  Its scoring block
(lines 20-105) is transcribed separately and in full below, exactly as it
is written there — the point of claim C6 is to compare this duplicate
against calculate_risk_score.  The randomly sampled profile is taken as
input (a GenDraw), which also covers generate_application being fed any
values the sampler can produce.
-/

/-- One realisation of the random draws of src/generate_data.py lines
10-18 and the application_date draw of line 108.  random.randint values
are integers. -/
structure GenDraw where
  application_date : String
  income : ℤ
  loan_amount : ℤ
  loan_term : ℤ
  credit_history : ℤ
  employment : EmploymentStatus
  property_area : PropertyArea
  dependents : ℤ
  education : Education
  existing_debt : ℤ
  deriving DecidableEq, Repr

/-- The LoanApplication carrying the same attribute values as a draw. -/
def GenDraw.toApplication (d : GenDraw) : LoanApplication :=
  { applicant_income := (d.income : ℚ)
    loan_amount := (d.loan_amount : ℚ)
    loan_term_months := d.loan_term
    credit_history_months := d.credit_history
    employment_status := d.employment
    property_area := d.property_area
    dependents := d.dependents
    education := d.education
    existing_debt := (d.existing_debt : ℚ) }

/-- The score computation of src/generate_data.py lines 20-94, written as
the sequential accumulation of that file (base 50, nine if/elif blocks,
then the cap of line 94). -/
def gen_score (a : LoanApplication) : ℤ :=
  let debt_to_income : ℚ := a.existing_debt / a.applicant_income * 100
  let loan_to_income : ℚ := a.loan_amount / a.applicant_income
  let s₀ : ℤ := 50
  let s₁ := s₀ + (if a.applicant_income > 80000 then 15
                  else if a.applicant_income > 50000 then 10
                  else if a.applicant_income < 25000 then -15 else 0)
  let s₂ := s₁ + (if debt_to_income < 20 then 15
                  else if debt_to_income < 35 then 5
                  else if debt_to_income > 50 then -15
                  else if debt_to_income > 40 then -10 else 0)
  let s₃ := s₂ + (if loan_to_income < 2 then 15
                  else if loan_to_income < 3 then 8
                  else if loan_to_income > 5 then -15
                  else if loan_to_income > 4 then -10 else 0)
  let s₄ := s₃ + (if a.credit_history_months > 60 then 10
                  else if a.credit_history_months > 36 then 5
                  else if a.credit_history_months < 12 then -10 else 0)
  let s₅ := s₄ + (if a.employment_status = .employed then 10
                  else if a.employment_status = .unemployed then -20 else 0)
  let s₆ := s₅ + (if a.education = .graduate then 5 else 0)
  let s₇ := s₆ + (if a.property_area = .urban then 5
                  else if a.property_area = .rural then -3 else 0)
  let s₈ := s₇ + (if a.dependents = 0 then 5
                  else if a.dependents > 3 then -5 else 0)
  let s₉ := s₈ + (if a.loan_term_months ≤ 180 then 5
                  else if a.loan_term_months > 360 then -3 else 0)
  max 0 (min 100 s₉)

/-- The decision labels of src/generate_data.py lines 97-105. -/
inductive GenDecision where
  | APPROVED
  | REVIEW
  | DECLINED
  deriving DecidableEq, Repr

/-- Category branch of src/generate_data.py lines 97-105. -/
def gen_category (score : ℤ) : RiskCategory :=
  if score ≥ 70 then .LOW
  else if score ≥ 50 then .MEDIUM
  else .HIGH

/-- Decision branch of src/generate_data.py lines 97-105. -/
def gen_decision (score : ℤ) : GenDecision :=
  if score ≥ 70 then .APPROVED
  else if score ≥ 50 then .REVIEW
  else .DECLINED

/-- One row of the generated dataset, the dict of src/generate_data.py
lines 107-123. -/
structure GenRow where
  application_date : String
  applicant_income : ℤ
  loan_amount : ℤ
  loan_term_months : ℤ
  credit_history_months : ℤ
  employment_status : EmploymentStatus
  property_area : PropertyArea
  dependents : ℤ
  education : Education
  existing_debt : ℤ
  debt_to_income_ratio : ℚ
  loan_to_income_ratio : ℚ
  risk_score : ℤ
  risk_category : RiskCategory
  decision : GenDecision
  deriving DecidableEq, Repr

/-- generate_application of src/generate_data.py lines 6-123, applied to
one realisation of its random draws. -/
def generate_application (d : GenDraw) : GenRow :=
  let a := d.toApplication
  let score := gen_score a
  { application_date := d.application_date
    applicant_income := d.income
    loan_amount := d.loan_amount
    loan_term_months := d.loan_term
    credit_history_months := d.credit_history
    employment_status := d.employment
    property_area := d.property_area
    dependents := d.dependents
    education := d.education
    existing_debt := d.existing_debt
    debt_to_income_ratio := round2 (a.existing_debt / a.applicant_income * 100)
    loan_to_income_ratio := round2 (a.loan_amount / a.applicant_income)
    risk_score := score
    risk_category := gen_category score
    decision := gen_decision score }

/-- generate_dataset of src/generate_data.py lines 125-134: build one row
per draw, then applications.sort by application_date (Python sorts
stably and ascending; list.sort on string keys is lexicographic order,
here List.mergeSort, which is also a stable sort). -/
def generate_dataset (draws : List GenDraw) : List GenRow :=
  (draws.map generate_application).mergeSort
    (fun x y => decide (x.application_date ≤ y.application_date))

/-
Helper lemmas shared by the claim proofs.
-/

theorem ratFloor_eq_intFloor (q : ℚ) : (Rat.floor q : ℤ) = ⌊q⌋ := by
  rw [Rat.floor_def', Rat.floor_def]

theorem pyRound_eq (q : ℚ) :
    pyRound q =
      if q - (⌊q⌋ : ℚ) < 1/2 then ⌊q⌋
      else if 1/2 < q - (⌊q⌋ : ℚ) then ⌊q⌋ + 1
      else if ⌊q⌋ % 2 = 0 then ⌊q⌋
      else ⌊q⌋ + 1 := by
  unfold pyRound
  rw [ratFloor_eq_intFloor]

theorem pyRound_le_floor_add_one (q : ℚ) : pyRound q ≤ ⌊q⌋ + 1 := by
  rw [pyRound_eq]
  split_ifs <;> omega

theorem floor_le_pyRound (q : ℚ) : ⌊q⌋ ≤ pyRound q := by
  rw [pyRound_eq]
  split_ifs <;> omega

theorem pyRound_mono {q r : ℚ} (h : q ≤ r) : pyRound q ≤ pyRound r := by
  rcases lt_or_le ⌊q⌋ ⌊r⌋ with hf | hf
  · have h1 := pyRound_le_floor_add_one q
    have h2 := floor_le_pyRound r
    omega
  · have hf' : ⌊q⌋ = ⌊r⌋ := le_antisymm (Int.floor_le_floor h) hf
    have hqr : q - ((⌊r⌋ : ℤ) : ℚ) ≤ r - ((⌊r⌋ : ℤ) : ℚ) := by linarith
    rw [pyRound_eq, pyRound_eq, hf']
    split_ifs <;> first
      | omega
      | (exfalso; linarith)

theorem risk_score_proj (a : LoanApplication) (n₁ n₂ : String) :
    (calculate_risk_score a n₁ n₂).risk_score = clampedScore a := rfl

theorem risk_category_proj (a : LoanApplication) (n₁ n₂ : String) :
    (calculate_risk_score a n₁ n₂).risk_category =
      risk_category_of (clampedScore a) := rfl

theorem approval_proj (a : LoanApplication) (n₁ n₂ : String) :
    (calculate_risk_score a n₁ n₂).approval_recommendation =
      approval_of (clampedScore a) := rfl

theorem confidence_proj (a : LoanApplication) (n₁ n₂ : String) :
    (calculate_risk_score a n₁ n₂).confidence =
      round2 (confidence_raw (clampedScore a)) := rfl

theorem clampedScore_bounds (a : LoanApplication) :
    0 ≤ clampedScore a ∧ clampedScore a ≤ 100 := by
  unfold clampedScore
  omega

/-
Claim theorems.
-/

/-- C1: for every ApplicantRecord satisfying the §3 constraints, the
risk_score returned by calculate_risk_score satisfies
0 ≤ risk_score ≤ 100. -/
theorem C1_risk_score_bounded (a : LoanApplication) (n₁ n₂ : String)
    (h : Valid a) :
    0 ≤ (calculate_risk_score a n₁ n₂).risk_score ∧
      (calculate_risk_score a n₁ n₂).risk_score ≤ 100 := by
  rw [risk_score_proj]
  exact clampedScore_bounds a

/-- Witness for C1 at the concrete Scenario-2 record. -/
theorem C1_risk_score_bounded_witness :
    Valid scenario2 ∧
      (0 ≤ (calculate_risk_score scenario2 clock1 clock2).risk_score ∧
        (calculate_risk_score scenario2 clock1 clock2).risk_score ≤ 100) :=
  ⟨by decide, C1_risk_score_bounded scenario2 clock1 clock2 (by decide)⟩

/-- C2: on the clamped score, risk_score ≥ 70 iff category LOW iff
decision APPROVE; 50 ≤ risk_score < 70 iff MEDIUM iff REVIEW;
risk_score < 50 iff HIGH iff DECLINE. -/
theorem C2_category_decision_correspondence (a : LoanApplication)
    (n₁ n₂ : String) (h : Valid a) :
    ((70 ≤ (calculate_risk_score a n₁ n₂).risk_score ↔
        (calculate_risk_score a n₁ n₂).risk_category = .LOW) ∧
      ((calculate_risk_score a n₁ n₂).risk_category = .LOW ↔
        (calculate_risk_score a n₁ n₂).approval_recommendation = .APPROVE)) ∧
    (((50 ≤ (calculate_risk_score a n₁ n₂).risk_score ∧
        (calculate_risk_score a n₁ n₂).risk_score < 70) ↔
        (calculate_risk_score a n₁ n₂).risk_category = .MEDIUM) ∧
      ((calculate_risk_score a n₁ n₂).risk_category = .MEDIUM ↔
        (calculate_risk_score a n₁ n₂).approval_recommendation = .REVIEW)) ∧
    (((calculate_risk_score a n₁ n₂).risk_score < 50 ↔
        (calculate_risk_score a n₁ n₂).risk_category = .HIGH) ∧
      ((calculate_risk_score a n₁ n₂).risk_category = .HIGH ↔
        (calculate_risk_score a n₁ n₂).approval_recommendation = .DECLINE)) := by
  rw [risk_score_proj, risk_category_proj, approval_proj]
  unfold risk_category_of approval_of
  split_ifs with h70 h50 <;> simp <;> omega

/-- Witness for C2 at the concrete Scenario-2 record. -/
theorem C2_category_decision_correspondence_witness :
    Valid scenario2 ∧
      ((70 ≤ (calculate_risk_score scenario2 clock1 clock2).risk_score ↔
          (calculate_risk_score scenario2 clock1 clock2).risk_category = .LOW) ∧
        ((calculate_risk_score scenario2 clock1 clock2).risk_category = .LOW ↔
          (calculate_risk_score scenario2 clock1 clock2).approval_recommendation = .APPROVE)) ∧
      (((50 ≤ (calculate_risk_score scenario2 clock1 clock2).risk_score ∧
          (calculate_risk_score scenario2 clock1 clock2).risk_score < 70) ↔
          (calculate_risk_score scenario2 clock1 clock2).risk_category = .MEDIUM) ∧
        ((calculate_risk_score scenario2 clock1 clock2).risk_category = .MEDIUM ↔
          (calculate_risk_score scenario2 clock1 clock2).approval_recommendation = .REVIEW)) ∧
      (((calculate_risk_score scenario2 clock1 clock2).risk_score < 50 ↔
          (calculate_risk_score scenario2 clock1 clock2).risk_category = .HIGH) ∧
        ((calculate_risk_score scenario2 clock1 clock2).risk_category = .HIGH ↔
          (calculate_risk_score scenario2 clock1 clock2).approval_recommendation = .DECLINE)) :=
  ⟨by decide,
    C2_category_decision_correspondence scenario2 clock1 clock2 (by decide)⟩

/-- C3: the score, category, recommendation and both factor lists of
calculate_risk_score are the same across any two calls on the same
record, whatever the two wall-clock reads of each call return — the
deterministic outputs depend on the input record alone. -/
theorem C3_deterministic_outputs (a : LoanApplication)
    (t₁ t₂ u₁ u₂ : String) (h : Valid a) :
    (calculate_risk_score a t₁ t₂).risk_score =
        (calculate_risk_score a u₁ u₂).risk_score ∧
      (calculate_risk_score a t₁ t₂).risk_category =
        (calculate_risk_score a u₁ u₂).risk_category ∧
      (calculate_risk_score a t₁ t₂).approval_recommendation =
        (calculate_risk_score a u₁ u₂).approval_recommendation ∧
      (calculate_risk_score a t₁ t₂).key_factors_positive =
        (calculate_risk_score a u₁ u₂).key_factors_positive ∧
      (calculate_risk_score a t₁ t₂).key_factors_negative =
        (calculate_risk_score a u₁ u₂).key_factors_negative :=
  ⟨rfl, rfl, rfl, rfl, rfl⟩

/-- Witness for C3 at the concrete Scenario-2 record with two different
clock readings. -/
theorem C3_deterministic_outputs_witness :
    Valid scenario2 ∧
      ((calculate_risk_score scenario2 clock1 clock2).risk_score =
          (calculate_risk_score scenario2 clock2 clock1).risk_score ∧
        (calculate_risk_score scenario2 clock1 clock2).risk_category =
          (calculate_risk_score scenario2 clock2 clock1).risk_category ∧
        (calculate_risk_score scenario2 clock1 clock2).approval_recommendation =
          (calculate_risk_score scenario2 clock2 clock1).approval_recommendation ∧
        (calculate_risk_score scenario2 clock1 clock2).key_factors_positive =
          (calculate_risk_score scenario2 clock2 clock1).key_factors_positive ∧
        (calculate_risk_score scenario2 clock1 clock2).key_factors_negative =
          (calculate_risk_score scenario2 clock2 clock1).key_factors_negative) :=
  ⟨by decide,
    C3_deterministic_outputs scenario2 clock1 clock2 clock2 clock1 (by decide)⟩

theorem confidence_round_mono {s t : ℤ} (h : |s - 50| ≤ |t - 50|) :
    round2 (confidence_raw s) ≤ round2 (confidence_raw t) := by
  unfold round2 confidence_raw
  have hc : |((s : ℤ) : ℚ) - 50| ≤ |((t : ℤ) : ℚ) - 50| := by
    have h2 : ((|s - 50| : ℤ) : ℚ) ≤ ((|t - 50| : ℤ) : ℚ) := by exact_mod_cast h
    rw [Int.cast_abs, Int.cast_abs] at h2
    push_cast at h2
    exact h2
  have hm : pyRound ((0.75 + (|((s : ℤ) : ℚ) - 50| / 100) * 0.2) * 100) ≤
      pyRound ((0.75 + (|((t : ℤ) : ℚ) - 50| / 100) * 0.2) * 100) := by
    apply pyRound_mono
    linarith
  have hm' : ((pyRound ((0.75 + (|((s : ℤ) : ℚ) - 50| / 100) * 0.2) * 100) : ℤ) : ℚ) ≤
      ((pyRound ((0.75 + (|((t : ℤ) : ℚ) - 50| / 100) * 0.2) * 100) : ℤ) : ℚ) := by
    exact_mod_cast hm
  linarith

theorem confidence_between {s : ℤ} (h0 : 0 ≤ s) (h100 : s ≤ 100) :
    0.75 ≤ round2 (confidence_raw s) ∧ round2 (confidence_raw s) ≤ 0.85 := by
  have hlo : |(50 : ℤ) - 50| ≤ |s - 50| := by
    have : |(50 : ℤ) - 50| = 0 := by decide
    rw [this]
    exact abs_nonneg _
  have hhi : |s - 50| ≤ |(100 : ℤ) - 50| := by
    have : |(100 : ℤ) - 50| = 50 := by decide
    rw [this]
    exact abs_le.mpr ⟨by omega, by omega⟩
  have e50 : round2 (confidence_raw 50) = 0.75 := by decide
  have e100 : round2 (confidence_raw 100) = 0.85 := by decide
  constructor
  · have := confidence_round_mono hlo
    rw [e50] at this
    exact this
  · have := confidence_round_mono hhi
    rw [e100] at this
    exact this

/-- C4: confidence is the rounded midpoint-distance formula, is monotone
non-decreasing in the distance of the score from 50, and lies in
[0.75, 0.95]. -/
theorem C4_confidence_formula_mono_bounds (a b : LoanApplication)
    (n₁ n₂ m₁ m₂ : String) (ha : Valid a) (hb : Valid b) :
    (calculate_risk_score a n₁ n₂).confidence =
      round2 (0.75 +
        (|((calculate_risk_score a n₁ n₂).risk_score : ℚ) - 50| / 100) * 0.2) ∧
    (|(calculate_risk_score a n₁ n₂).risk_score - 50| ≤
        |(calculate_risk_score b m₁ m₂).risk_score - 50| →
      (calculate_risk_score a n₁ n₂).confidence ≤
        (calculate_risk_score b m₁ m₂).confidence) ∧
    0.75 ≤ (calculate_risk_score a n₁ n₂).confidence ∧
    (calculate_risk_score a n₁ n₂).confidence ≤ 0.95 := by
  rw [confidence_proj, confidence_proj, risk_score_proj, risk_score_proj]
  obtain ⟨hb0, hb100⟩ := clampedScore_bounds a
  refine ⟨rfl, fun hle => confidence_round_mono hle, ?_, ?_⟩
  · exact (confidence_between hb0 hb100).1
  · have := (confidence_between hb0 hb100).2
    linarith

/-- Witness for C4 at two concrete records (Scenario 2 against itself). -/
theorem C4_confidence_formula_mono_bounds_witness :
    (Valid scenario2 ∧ Valid scenario2) ∧
      ((calculate_risk_score scenario2 clock1 clock2).confidence =
        round2 (0.75 +
          (|((calculate_risk_score scenario2 clock1 clock2).risk_score : ℚ) - 50| / 100) * 0.2) ∧
      (|(calculate_risk_score scenario2 clock1 clock2).risk_score - 50| ≤
          |(calculate_risk_score scenario2 clock2 clock1).risk_score - 50| →
        (calculate_risk_score scenario2 clock1 clock2).confidence ≤
          (calculate_risk_score scenario2 clock2 clock1).confidence) ∧
      0.75 ≤ (calculate_risk_score scenario2 clock1 clock2).confidence ∧
      (calculate_risk_score scenario2 clock1 clock2).confidence ≤ 0.95) :=
  ⟨⟨by decide, by decide⟩,
    C4_confidence_formula_mono_bounds scenario2 scenario2 clock1 clock2
      clock2 clock1 (by decide) (by decide)⟩

/-- C10: confidence never exceeds 0.85 (the achievable range is the
tighter [0.75, 0.85]), and 0.85 is attained at some valid input. -/
theorem C10_confidence_at_most_85 (a : LoanApplication) (n₁ n₂ : String)
    (h : Valid a) :
    (calculate_risk_score a n₁ n₂).confidence ≤ 0.85 ∧
      ∃ b : LoanApplication, Valid b ∧
        (calculate_risk_score b n₁ n₂).confidence = 0.85 := by
  obtain ⟨hb0, hb100⟩ := clampedScore_bounds a
  constructor
  · rw [confidence_proj]
    exact (confidence_between hb0 hb100).2
  · refine ⟨scenario2, by decide, ?_⟩
    rw [confidence_proj]
    have h100 : clampedScore scenario2 = 100 := by decide
    rw [h100]
    decide

/-- Witness for C10 at the concrete Scenario-2 record. -/
theorem C10_confidence_at_most_85_witness :
    Valid scenario2 ∧
      ((calculate_risk_score scenario2 clock1 clock2).confidence ≤ 0.85 ∧
        ∃ b : LoanApplication, Valid b ∧
          (calculate_risk_score b clock1 clock2).confidence = 0.85) :=
  ⟨by decide, C10_confidence_at_most_85 scenario2 clock1 clock2 (by decide)⟩

theorem key_factors_positive_proj (a : LoanApplication) (n₁ n₂ : String) :
    (calculate_risk_score a n₁ n₂).key_factors_positive =
      if positive_factors a = [] then ["None identified"]
      else positive_factors a := rfl

theorem key_factors_negative_proj (a : LoanApplication) (n₁ n₂ : String) :
    (calculate_risk_score a n₁ n₂).key_factors_negative =
      if negative_factors a = [] then ["None identified"]
      else negative_factors a := rfl

/-- C5: a factor list is exactly the placeholder iff none of its five
rules fired, and the placeholder never occurs in a list holding any
other entry. -/
theorem C5_placeholder_exactly_when_no_rule (a : LoanApplication)
    (n₁ n₂ : String) (h : Valid a) :
    ((calculate_risk_score a n₁ n₂).key_factors_positive = ["None identified"] ↔
      ¬(a.applicant_income > 60000 ∨ debt_to_income a < 30 ∨
        a.credit_history_months > 48 ∨ a.employment_status = .employed ∨
        loan_to_income a < 3)) ∧
    ((calculate_risk_score a n₁ n₂).key_factors_negative = ["None identified"] ↔
      ¬(debt_to_income a > 40 ∨ loan_to_income a > 4 ∨
        a.credit_history_months < 24 ∨ a.employment_status = .unemployed ∨
        payment_to_income a > 40)) ∧
    (("None identified") ∈ (calculate_risk_score a n₁ n₂).key_factors_positive →
      (calculate_risk_score a n₁ n₂).key_factors_positive = ["None identified"]) ∧
    (("None identified") ∈ (calculate_risk_score a n₁ n₂).key_factors_negative →
      (calculate_risk_score a n₁ n₂).key_factors_negative = ["None identified"]) := by
  simp only [key_factors_positive_proj, key_factors_negative_proj]
  refine ⟨?_, ?_, ?_, ?_⟩
  · by_cases h1 : a.applicant_income > 60000 <;>
    by_cases h2 : debt_to_income a < 30 <;>
    by_cases h3 : a.credit_history_months > 48 <;>
    by_cases h4 : a.employment_status = .employed <;>
    by_cases h5 : loan_to_income a < 3 <;>
      simp [positive_factors, h1, h2, h3, h4, h5]
  · by_cases h1 : debt_to_income a > 40 <;>
    by_cases h2 : loan_to_income a > 4 <;>
    by_cases h3 : a.credit_history_months < 24 <;>
    by_cases h4 : a.employment_status = .unemployed <;>
    by_cases h5 : payment_to_income a > 40 <;>
      simp [negative_factors, negative_factors_pti, h1, h2, h3, h4, h5]
  · by_cases h1 : a.applicant_income > 60000 <;>
    by_cases h2 : debt_to_income a < 30 <;>
    by_cases h3 : a.credit_history_months > 48 <;>
    by_cases h4 : a.employment_status = .employed <;>
    by_cases h5 : loan_to_income a < 3 <;>
      simp [positive_factors, h1, h2, h3, h4, h5]
  · by_cases h1 : debt_to_income a > 40 <;>
    by_cases h2 : loan_to_income a > 4 <;>
    by_cases h3 : a.credit_history_months < 24 <;>
    by_cases h4 : a.employment_status = .unemployed <;>
    by_cases h5 : payment_to_income a > 40 <;>
      simp [negative_factors, negative_factors_pti, h1, h2, h3, h4, h5]

/-- Witness for C5 at the concrete Scenario-2 record. -/
theorem C5_placeholder_exactly_when_no_rule_witness :
    Valid scenario2 ∧
      (((calculate_risk_score scenario2 clock1 clock2).key_factors_positive =
          ["None identified"] ↔
        ¬(scenario2.applicant_income > 60000 ∨ debt_to_income scenario2 < 30 ∨
          scenario2.credit_history_months > 48 ∨
          scenario2.employment_status = .employed ∨
          loan_to_income scenario2 < 3)) ∧
      ((calculate_risk_score scenario2 clock1 clock2).key_factors_negative =
          ["None identified"] ↔
        ¬(debt_to_income scenario2 > 40 ∨ loan_to_income scenario2 > 4 ∨
          scenario2.credit_history_months < 24 ∨
          scenario2.employment_status = .unemployed ∨
          payment_to_income scenario2 > 40)) ∧
      (("None identified") ∈
          (calculate_risk_score scenario2 clock1 clock2).key_factors_positive →
        (calculate_risk_score scenario2 clock1 clock2).key_factors_positive =
          ["None identified"]) ∧
      (("None identified") ∈
          (calculate_risk_score scenario2 clock1 clock2).key_factors_negative →
        (calculate_risk_score scenario2 clock1 clock2).key_factors_negative =
          ["None identified"])) :=
  ⟨by decide,
    C5_placeholder_exactly_when_no_rule scenario2 clock1 clock2 (by decide)⟩

theorem employmentAdj_ite (e : EmploymentStatus) :
    employmentAdj e =
      if e = .employed then 10 else if e = .unemployed then -20 else 0 := by
  cases e <;> rfl

theorem educationAdj_ite (e : Education) :
    educationAdj e = if e = .graduate then 5 else 0 := by
  cases e <;> rfl

theorem areaAdj_ite (p : PropertyArea) :
    areaAdj p = if p = .urban then 5 else if p = .rural then -3 else 0 := by
  cases p <;> rfl

theorem gen_score_eq_clampedScore (a : LoanApplication) :
    gen_score a = clampedScore a := by
  simp only [gen_score, clampedScore, rawScore, incomeAdj, dtiAdj, ltiAdj,
    creditAdj, dependentsAdj, loanTermAdj, debt_to_income, loan_to_income,
    employmentAdj_ite, educationAdj_ite, areaAdj_ite]

/-- C6: the scoring duplicated into the dataset generator and the API
engine agree on score and category, and their decision labels
correspond one-to-one (APPROVE-APPROVED, REVIEW-REVIEW,
DECLINE-DECLINED). -/
theorem C6_duplicate_engines_agree (a : LoanApplication) (n₁ n₂ : String)
    (h : Valid a) :
    gen_score a = (calculate_risk_score a n₁ n₂).risk_score ∧
      gen_category (gen_score a) = (calculate_risk_score a n₁ n₂).risk_category ∧
      ((calculate_risk_score a n₁ n₂).approval_recommendation = .APPROVE ↔
        gen_decision (gen_score a) = .APPROVED) ∧
      ((calculate_risk_score a n₁ n₂).approval_recommendation = .REVIEW ↔
        gen_decision (gen_score a) = .REVIEW) ∧
      ((calculate_risk_score a n₁ n₂).approval_recommendation = .DECLINE ↔
        gen_decision (gen_score a) = .DECLINED) := by
  rw [risk_score_proj, risk_category_proj, approval_proj,
    gen_score_eq_clampedScore]
  refine ⟨rfl, rfl, ?_, ?_, ?_⟩ <;>
    · unfold approval_of gen_decision
      split_ifs <;> simp

/-- Witness for C6 at the concrete Scenario-2 record. -/
theorem C6_duplicate_engines_agree_witness :
    Valid scenario2 ∧
      (gen_score scenario2 =
          (calculate_risk_score scenario2 clock1 clock2).risk_score ∧
        gen_category (gen_score scenario2) =
          (calculate_risk_score scenario2 clock1 clock2).risk_category ∧
        ((calculate_risk_score scenario2 clock1 clock2).approval_recommendation =
            .APPROVE ↔ gen_decision (gen_score scenario2) = .APPROVED) ∧
        ((calculate_risk_score scenario2 clock1 clock2).approval_recommendation =
            .REVIEW ↔ gen_decision (gen_score scenario2) = .REVIEW) ∧
        ((calculate_risk_score scenario2 clock1 clock2).approval_recommendation =
            .DECLINE ↔ gen_decision (gen_score scenario2) = .DECLINED)) :=
  ⟨by decide, C6_duplicate_engines_agree scenario2 clock1 clock2 (by decide)⟩

/-- C7: the engine is the payment_to_income instance of the
pti-parameterised engine; score, category, recommendation and the
positive list never depend on that parameter; the whole assessment
depends on it only through the single test pti > 40, which governs the
presence of the high-monthly-payment entry in the negative list. -/
theorem C7_payment_to_income_influence (a : LoanApplication)
    (pti₁ pti₂ : ℚ) (n₁ n₂ : String) (h : Valid a) :
    calculate_risk_score a n₁ n₂ =
        calculate_with_pti a (payment_to_income a) n₁ n₂ ∧
      (calculate_with_pti a pti₁ n₁ n₂).risk_score =
        (calculate_with_pti a pti₂ n₁ n₂).risk_score ∧
      (calculate_with_pti a pti₁ n₁ n₂).risk_category =
        (calculate_with_pti a pti₂ n₁ n₂).risk_category ∧
      (calculate_with_pti a pti₁ n₁ n₂).approval_recommendation =
        (calculate_with_pti a pti₂ n₁ n₂).approval_recommendation ∧
      (calculate_with_pti a pti₁ n₁ n₂).key_factors_positive =
        (calculate_with_pti a pti₂ n₁ n₂).key_factors_positive ∧
      ((pti₁ > 40 ↔ pti₂ > 40) →
        calculate_with_pti a pti₁ n₁ n₂ = calculate_with_pti a pti₂ n₁ n₂) ∧
      (("High monthly payment burden") ∈
          (calculate_risk_score a n₁ n₂).key_factors_negative ↔
        payment_to_income a > 40) := by
  refine ⟨rfl, rfl, rfl, rfl, rfl, ?_, ?_⟩
  · intro hiff
    by_cases h40 : pti₁ > 40
    · have h41 : pti₂ > 40 := hiff.mp h40
      simp only [calculate_with_pti, negative_factors_pti, if_pos h40,
        if_pos h41]
    · have h41 : ¬pti₂ > 40 := fun hh => h40 (hiff.mpr hh)
      simp only [calculate_with_pti, negative_factors_pti, if_neg h40,
        if_neg h41]
  · simp only [key_factors_negative_proj]
    by_cases h1 : debt_to_income a > 40 <;>
    by_cases h2 : loan_to_income a > 4 <;>
    by_cases h3 : a.credit_history_months < 24 <;>
    by_cases h4 : a.employment_status = .unemployed <;>
    by_cases h5 : payment_to_income a > 40 <;>
      simp [negative_factors, negative_factors_pti, h1, h2, h3, h4, h5]

/-- Witness for C7 at the concrete Scenario-2 record with two concrete
parameter values. -/
theorem C7_payment_to_income_influence_witness :
    Valid scenario2 ∧
      (calculate_risk_score scenario2 clock1 clock2 =
          calculate_with_pti scenario2 (payment_to_income scenario2)
            clock1 clock2 ∧
        (calculate_with_pti scenario2 10 clock1 clock2).risk_score =
          (calculate_with_pti scenario2 50 clock1 clock2).risk_score ∧
        (calculate_with_pti scenario2 10 clock1 clock2).risk_category =
          (calculate_with_pti scenario2 50 clock1 clock2).risk_category ∧
        (calculate_with_pti scenario2 10 clock1 clock2).approval_recommendation =
          (calculate_with_pti scenario2 50 clock1 clock2).approval_recommendation ∧
        (calculate_with_pti scenario2 10 clock1 clock2).key_factors_positive =
          (calculate_with_pti scenario2 50 clock1 clock2).key_factors_positive ∧
        (((10 : ℚ) > 40 ↔ (50 : ℚ) > 40) →
          calculate_with_pti scenario2 10 clock1 clock2 =
            calculate_with_pti scenario2 50 clock1 clock2) ∧
        (("High monthly payment burden") ∈
            (calculate_risk_score scenario2 clock1 clock2).key_factors_negative ↔
          payment_to_income scenario2 > 40)) :=
  ⟨by decide,
    C7_payment_to_income_influence scenario2 10 50 clock1 clock2 (by decide)⟩

/-- C8: generate_dataset returns its rows sorted ascending by the
application_date string: each adjacent pair is ordered. -/
theorem C8_dataset_sorted_by_date (draws : List GenDraw) :
    (generate_dataset draws).Chain'
      (fun x y => x.application_date ≤ y.application_date) := by
  have hp : (generate_dataset draws).Pairwise
      (fun x y => (decide (x.application_date ≤ y.application_date)) = true) := by
    apply List.sorted_mergeSort
    · intro x y z hxy hyz
      simp only [decide_eq_true_eq] at hxy hyz ⊢
      exact le_trans hxy hyz
    · intro x y
      simp only [Bool.or_eq_true, decide_eq_true_eq]
      exact le_total _ _
  exact List.Pairwise.chain'
    (hp.imp (fun hxy => of_decide_eq_true hxy))

/-- C9: the Scenario-2 input (income 100000, loan 150000, term 180,
credit history 96, employed, urban, 1 dependent, graduate, debt 5000)
is assessed LOW / APPROVE with score at least 70. -/
theorem C9_scenario2_low_approve :
    (calculate_risk_score scenario2 clock1 clock2).risk_category = .LOW ∧
      (calculate_risk_score scenario2 clock1 clock2).approval_recommendation =
        .APPROVE ∧
      70 ≤ (calculate_risk_score scenario2 clock1 clock2).risk_score := by
  decide

end CreditRisk
